import Mathlib

/-!
Verification of the scoring/normalization/classification core of the
Marine Ecosystem Guardian analyzer (src/app.py).

The core is a pure function library: raw measurements are normalized
against table-defined optimal ranges, combined into weighted composite
indices, classified into threshold buckets, and used to select one of two
recommendation sets.  Python floats are modelled as exact rationals (ℚ);
a Python `ZeroDivisionError` is modelled as `none` (for the parameter
normalizer) or as an explicit error value (for the recommendation
selector), since rational division in Lean is total while Python raises.
-/

namespace MarineEcosystemGuardian

/-- Record type for one entry of the `Water Quality` section of the
biodiversity model table (`_load_biodiversity_model`): an optimal range
`(min, max)` and an importance weight. -/
structure WaterQualityParam where
  optimal_range : ℚ × ℚ
  importance : ℚ
  deriving DecidableEq

/-- Table entry `Dissolved Oxygen` with optimal range (6.5, 8.5). -/
def dissolvedOxygen : WaterQualityParam := ⟨(13/2, 17/2), 3/10⟩

/-- Table entry `Turbidity` with optimal range (0, 5). -/
def turbidityParam : WaterQualityParam := ⟨(0, 5), 2/10⟩

/-- Table entry `Microplastic Count` with optimal range (0, 10). -/
def microplasticCount : WaterQualityParam := ⟨(0, 10), 3/10⟩

/-- Table entry `Chemical Pollutants` with optimal range (0, 2). -/
def chemicalPollutants : WaterQualityParam := ⟨(0, 2), 2/10⟩

/-- Record type for one entry of the `Risk Factors` section of the HAB
prediction model table (`_load_hab_model`). -/
structure RiskFactor where
  sensitivity : ℚ
  deriving DecidableEq

/-- Table entry `Water Temperature` of the HAB model. -/
def waterTemperature : RiskFactor := ⟨3/10⟩

/-- Table entry `Nutrient Levels` of the HAB model. -/
def nutrientLevels : RiskFactor := ⟨3/10⟩

/-- Table entry `Salinity` of the HAB model. -/
def salinityFactor : RiskFactor := ⟨2/10⟩

/-- Table entry `pH Levels` of the HAB model. -/
def phLevels : RiskFactor := ⟨2/10⟩

/-- Embedding of `_calculate_parameter_score(value, optimal_range)`
(src/app.py lines 332-342).  The Python code returns `1.0` inside the
band, `max(0, 1 - (min - value)/min)` below it and
`max(0, 1 - (value - max)/max)` above it.  When the divisor bound is `0`
the Python division raises `ZeroDivisionError`; that outcome is modelled
as `none` (rational division in Lean is total, so the guard is explicit). -/
def calculate_parameter_score (value : ℚ) (optimal_range : ℚ × ℚ) : Option ℚ :=
  let min_val := optimal_range.1
  let max_val := optimal_range.2
  if min_val ≤ value ∧ value ≤ max_val then
    some 1
  else if value < min_val then
    if min_val = 0 then none
    else some (max 0 (1 - (min_val - value) / min_val))
  else
    if max_val = 0 then none
    else some (max 0 (1 - (value - max_val) / max_val))

/-- Embedding of `_calculate_water_quality(oxygen, turbidity,
microplastic, chemical)` (src/app.py lines 310-330): the four parameter
scores against the table-defined optimal ranges, combined with the
hard-coded weights 0.3/0.2/0.3/0.2.  A `ZeroDivisionError` in any
parameter score propagates (result `none`). -/
def calculate_water_quality (oxygen turbidity microplastic chemical : ℚ) : Option ℚ :=
  match calculate_parameter_score oxygen dissolvedOxygen.optimal_range,
        calculate_parameter_score turbidity turbidityParam.optimal_range,
        calculate_parameter_score microplastic microplasticCount.optimal_range,
        calculate_parameter_score chemical chemicalPollutants.optimal_range with
  | some oxygen_score, some turbidity_score, some microplastic_score, some chemical_score =>
      some (oxygen_score * (3/10) + turbidity_score * (2/10) +
            microplastic_score * (3/10) + chemical_score * (2/10))
  | _, _, _, _ => none

/-- Embedding of the HAB risk score computed in
`analyze_harmful_algal_bloom` (src/app.py lines 217-223), with the
sensitivities looked up in the HAB model table. -/
def hab_risk_score (water_temp nutrient_levels salinity ph_level : ℚ) : ℚ :=
  waterTemperature.sensitivity * (water_temp / 35) +
  nutrientLevels.sensitivity * (nutrient_levels / 10) +
  salinityFactor.sensitivity * (1 - |salinity - 35| / 10) +
  phLevels.sensitivity * (1 - |ph_level - 8| / 2)

/-- The four HAB risk categories of src/app.py lines 226-231. -/
inductive RiskCategory where
  | Critical
  | High
  | Moderate
  | Low
  deriving DecidableEq

/-- Embedding of the risk-category chain of `analyze_harmful_algal_bloom`
(src/app.py lines 226-231): strict `>` comparisons checked from the
highest cutoff down. -/
def risk_category (hab_score : ℚ) : RiskCategory :=
  if hab_score > 8/10 then RiskCategory.Critical
  else if hab_score > 6/10 then RiskCategory.High
  else if hab_score > 4/10 then RiskCategory.Moderate
  else RiskCategory.Low

/-- Embedding of the water-quality display color chain of
`analyze_marine_health` (src/app.py line 303): `green` above 0.7,
`orange` above 0.4, `red` otherwise, strict `>` comparisons. -/
def quality_color (water_quality : ℚ) : String :=
  if water_quality > 7/10 then "green"
  else if water_quality > 4/10 then "orange"
  else "red"

/-- The two recommendation sets of
`_display_conservation_recommendations` (Critical Actions Required vs
Preventive Measures). -/
inductive RecommendationSet where
  | CriticalActions
  | PreventiveMeasures
  deriving DecidableEq

/-- Error outcomes for the recommendation selector.  `ZeroDivisionError`
is the unhandled Python exception the source raises on an empty list
(`sum(species_health) / len(species_health)`); `EmptyInputError` is the
explicit named error the spec (section 7) demands instead — the source
never produces it, the constructor exists so the divergence can be
stated. -/
inductive SelectorError where
  | ZeroDivisionError
  | EmptyInputError
  deriving DecidableEq

/-- Embedding of `_display_conservation_recommendations(water_quality,
species_health)` (src/app.py lines 344-361): the species average is
`sum / len` (an unhandled `ZeroDivisionError` when the list is empty,
modelled as an explicit error value), and the Critical set is chosen iff
`water_quality < 0.5` or the average is `< 0.5`. -/
def display_conservation_recommendations (water_quality : ℚ)
    (species_health : List ℚ) : Except SelectorError RecommendationSet :=
  if species_health.length = 0 then
    Except.error SelectorError.ZeroDivisionError
  else
    let avg_species_health := species_health.sum / (species_health.length : ℚ)
    if water_quality < 1/2 ∨ avg_species_health < 1/2 then
      Except.ok RecommendationSet.CriticalActions
    else
      Except.ok RecommendationSet.PreventiveMeasures

/- Branch lemmas for the parameter normalizer. -/

/-- Inside the optimal band the normalizer returns 1. -/
lemma cps_in_band (mn mx value : ℚ) (h1 : mn ≤ value) (h2 : value ≤ mx) :
    calculate_parameter_score value (mn, mx) = some 1 := by
  simp [calculate_parameter_score, h1, h2]

/-- Below a nonzero lower bound the normalizer returns the penalized
score scaled by the lower bound. -/
lemma cps_below (mn mx value : ℚ) (h : value < mn) (h0 : mn ≠ 0) :
    calculate_parameter_score value (mn, mx) =
      some (max 0 (1 - (mn - value) / mn)) := by
  have hb : ¬(mn ≤ value ∧ value ≤ mx) := by
    intro hc
    exact absurd hc.1 (not_le.mpr h)
  simp [calculate_parameter_score, hb, h, h0]

/-- Above a nonzero upper bound (and at or above the lower bound) the
normalizer returns the penalized score scaled by the upper bound. -/
lemma cps_above (mn mx value : ℚ) (hge : mn ≤ value) (h : mx < value) (h0 : mx ≠ 0) :
    calculate_parameter_score value (mn, mx) =
      some (max 0 (1 - (value - mx) / mx)) := by
  have hb : ¬(mn ≤ value ∧ value ≤ mx) := by
    intro hc
    exact absurd hc.2 (not_le.mpr h)
  have hlt : ¬(value < mn) := not_lt.mpr hge
  simp [calculate_parameter_score, hb, hlt, h0]

/-- Below a zero lower bound the normalizer divides by zero
(Python raises). -/
lemma cps_below_zero (mx value : ℚ) (h : value < 0) :
    calculate_parameter_score value (0, mx) = none := by
  have hb : ¬((0:ℚ) ≤ value ∧ value ≤ mx) := by
    intro hc
    exact absurd hc.1 (not_le.mpr h)
  simp [calculate_parameter_score, hb, h]

/-- With strictly positive bounds the normalizer is total and its value
lies in the unit interval. -/
lemma cps_total_pos (mn mx value : ℚ) (hmn : 0 < mn) (hmx : 0 < mx) :
    ∃ s, calculate_parameter_score value (mn, mx) = some s ∧ 0 ≤ s ∧ s ≤ 1 := by
  rcases le_or_lt mn value with h1 | h1
  · rcases le_or_lt value mx with h2 | h2
    · exact ⟨1, cps_in_band mn mx value h1 h2, by norm_num, le_refl 1⟩
    · refine ⟨_, cps_above mn mx value h1 h2 (ne_of_gt hmx), le_max_left _ _, ?_⟩
      have hd : 0 ≤ (value - mx) / mx := div_nonneg (by linarith) (le_of_lt hmx)
      rw [max_le_iff]
      constructor <;> linarith
  · refine ⟨_, cps_below mn mx value h1 (ne_of_gt hmn), le_max_left _ _, ?_⟩
    have hd : 0 ≤ (mn - value) / mn := div_nonneg (by linarith) (le_of_lt hmn)
    rw [max_le_iff]
    constructor <;> linarith

/-- With lower bound 0, positive upper bound and a nonnegative value the
normalizer is total and its value lies in the unit interval. -/
lemma cps_total_zero_min (mx value : ℚ) (hmx : 0 < mx) (hv : 0 ≤ value) :
    ∃ s, calculate_parameter_score value (0, mx) = some s ∧ 0 ≤ s ∧ s ≤ 1 := by
  rcases le_or_lt value mx with h2 | h2
  · exact ⟨1, cps_in_band 0 mx value hv h2, by norm_num, le_refl 1⟩
  · refine ⟨_, cps_above 0 mx value hv h2 (ne_of_gt hmx), le_max_left _ _, ?_⟩
    have hd : 0 ≤ (value - mx) / mx := div_nonneg (by linarith) (le_of_lt hmx)
    rw [max_le_iff]
    constructor <;> linarith

/-- Moving a value up toward the lower bound of the range (with the
value staying at or below it) never decreases the normalized score. -/
lemma cps_mono_toward_min (mn mx x y a b : ℚ) (hmn : 0 ≤ mn) (hmm : mn ≤ mx)
    (hxy : x ≤ y) (hy : y ≤ mn)
    (ha : calculate_parameter_score x (mn, mx) = some a)
    (hb : calculate_parameter_score y (mn, mx) = some b) : a ≤ b := by
  rcases eq_or_lt_of_le hmn with h0 | h0
  · -- lower bound is 0: any strictly negative value raises, so x = y = 0
    have hx0 : ¬(x < 0) := by
      intro hneg
      rw [← h0, cps_below_zero mx x hneg] at ha
      exact Option.noConfusion ha
    have hy0 : y ≤ 0 := by rw [← h0] at hy; exact hy
    have hx : x = 0 := le_antisymm (le_trans hxy hy0) (not_lt.mp hx0)
    have hyy : y = 0 := le_antisymm hy0 (hx ▸ hxy)
    rw [hx] at ha
    rw [hyy] at hb
    rw [ha] at hb
    exact le_of_eq (Option.some.inj hb)
  · rcases eq_or_lt_of_le hy with hym | hym
    · -- y sits exactly at the lower bound: its score is 1, an upper bound
      have hb1 : b = 1 := by
        rw [cps_in_band mn mx y (le_of_eq hym.symm) (le_trans (le_of_eq hym) hmm)] at hb
        exact (Option.some.inj hb).symm
      obtain ⟨s, hs, _, hs1⟩ := cps_total_pos mn mx x h0 (lt_of_lt_of_le h0 hmm)
      rw [hs] at ha
      rw [Option.some.inj ha] at hs1
      rw [hb1]
      exact hs1
    · -- both strictly below: compare the two penalty terms
      have hxm : x < mn := lt_of_le_of_lt hxy hym
      rw [cps_below mn mx x hxm (ne_of_gt h0)] at ha
      rw [cps_below mn mx y hym (ne_of_gt h0)] at hb
      rw [← Option.some.inj ha, ← Option.some.inj hb]
      have hdiv : (mn - y) / mn ≤ (mn - x) / mn :=
        (div_le_div_iff_of_pos_right h0).mpr (by linarith)
      exact max_le_max (le_refl 0) (by linarith)

/-- Moving a value down toward the upper bound of the range (with the
value staying at or above it) never decreases the normalized score. -/
lemma cps_mono_toward_max (mn mx x y a b : ℚ) (hmx : 0 < mx) (hmm : mn ≤ mx)
    (hxy : y ≤ x) (hy : mx ≤ y)
    (ha : calculate_parameter_score x (mn, mx) = some a)
    (hb : calculate_parameter_score y (mn, mx) = some b) : a ≤ b := by
  rcases eq_or_lt_of_le hy with hym | hym
  · -- y sits exactly at the upper bound: its score is 1, an upper bound
    have hb1 : b = 1 := by
      rw [cps_in_band mn mx y (le_trans hmm (le_of_eq hym)) (le_of_eq hym.symm)] at hb
      exact (Option.some.inj hb).symm
    rcases eq_or_lt_of_le (le_trans hy hxy) with hxm | hxm
    · have ha1 : a = 1 := by
        rw [cps_in_band mn mx x (le_trans hmm (le_of_eq hxm)) (le_of_eq hxm.symm)] at ha
        exact (Option.some.inj ha).symm
      rw [ha1, hb1]
    · rw [cps_above mn mx x (le_trans hmm (le_of_lt hxm)) hxm (ne_of_gt hmx)] at ha
      rw [← Option.some.inj ha, hb1]
      have hd : 0 ≤ (x - mx) / mx := div_nonneg (by linarith) (le_of_lt hmx)
      rw [max_le_iff]
      constructor <;> linarith
  · -- both strictly above: compare the two penalty terms
    have hxm : mx < x := lt_of_lt_of_le hym hxy
    rw [cps_above mn mx x (le_trans hmm (le_of_lt hxm)) hxm (ne_of_gt hmx)] at ha
    rw [cps_above mn mx y (le_trans hmm (le_of_lt hym)) hym (ne_of_gt hmx)] at hb
    rw [← Option.some.inj ha, ← Option.some.inj hb]
    have hdiv : (y - mx) / mx ≤ (x - mx) / mx :=
      (div_le_div_iff_of_pos_right hmx).mpr (by linarith)
    exact max_le_max (le_refl 0) (by linarith)

/-- Composition form of the water-quality score: when the four parameter
scores are defined, the result is their fixed-weight combination. -/
lemma wq_some_intro (oxygen turbidity microplastic chemical so st sm sc : ℚ)
    (h1 : calculate_parameter_score oxygen (13/2, 17/2) = some so)
    (h2 : calculate_parameter_score turbidity (0, 5) = some st)
    (h3 : calculate_parameter_score microplastic (0, 10) = some sm)
    (h4 : calculate_parameter_score chemical (0, 2) = some sc) :
    calculate_water_quality oxygen turbidity microplastic chemical =
      some (so * (3/10) + st * (2/10) + sm * (3/10) + sc * (2/10)) := by
  unfold calculate_water_quality
  rw [show dissolvedOxygen.optimal_range = ((13:ℚ)/2, (17:ℚ)/2) from rfl,
      show turbidityParam.optimal_range = ((0:ℚ), (5:ℚ)) from rfl,
      show microplasticCount.optimal_range = ((0:ℚ), (10:ℚ)) from rfl,
      show chemicalPollutants.optimal_range = ((0:ℚ), (2:ℚ)) from rfl,
      h1, h2, h3, h4]

/-- Inversion form of the water-quality score: a defined result arises
only from four defined parameter scores combined with the fixed
weights. -/
lemma wq_some_elim (oxygen turbidity microplastic chemical w : ℚ)
    (h : calculate_water_quality oxygen turbidity microplastic chemical = some w) :
    ∃ so st sm sc,
      calculate_parameter_score oxygen (13/2, 17/2) = some so ∧
      calculate_parameter_score turbidity (0, 5) = some st ∧
      calculate_parameter_score microplastic (0, 10) = some sm ∧
      calculate_parameter_score chemical (0, 2) = some sc ∧
      w = so * (3/10) + st * (2/10) + sm * (3/10) + sc * (2/10) := by
  unfold calculate_water_quality at h
  rw [show dissolvedOxygen.optimal_range = ((13:ℚ)/2, (17:ℚ)/2) from rfl,
      show turbidityParam.optimal_range = ((0:ℚ), (5:ℚ)) from rfl,
      show microplasticCount.optimal_range = ((0:ℚ), (10:ℚ)) from rfl,
      show chemicalPollutants.optimal_range = ((0:ℚ), (2:ℚ)) from rfl] at h
  rcases h1 : calculate_parameter_score oxygen (13/2, 17/2) with _ | so <;> rw [h1] at h
  · exact Option.noConfusion h
  rcases h2 : calculate_parameter_score turbidity (0, 5) with _ | st <;> rw [h2] at h
  · exact Option.noConfusion h
  rcases h3 : calculate_parameter_score microplastic (0, 10) with _ | sm <;> rw [h3] at h
  · exact Option.noConfusion h
  rcases h4 : calculate_parameter_score chemical (0, 2) with _ | sc <;> rw [h4] at h
  · exact Option.noConfusion h
  exact ⟨so, st, sm, sc, rfl, rfl, rfl, rfl, (Option.some.inj h).symm⟩

/-- C1: for an optimal range (min, max) the parameter normalizer returns
1 when min ≤ value ≤ max; returns max(0, 1 - (min - value)/min) when
value < min, the penalty scaled relative to the violated lower bound
(stated for min ≠ 0, where the quotient is defined); and returns
max(0, 1 - (value - max)/max) when value > max, the penalty scaled
relative to the upper bound (stated for max ≠ 0 and min ≤ max, as holds
for any optimal band). -/
theorem parameter_score_formula (mn mx value : ℚ) :
    (mn ≤ value → value ≤ mx → calculate_parameter_score value (mn, mx) = some 1) ∧
    (value < mn → mn ≠ 0 →
      calculate_parameter_score value (mn, mx) = some (max 0 (1 - (mn - value) / mn))) ∧
    (mn ≤ mx → mx < value → mx ≠ 0 →
      calculate_parameter_score value (mn, mx) = some (max 0 (1 - (value - mx) / mx))) :=
  ⟨fun h1 h2 => cps_in_band mn mx value h1 h2,
   fun h h0 => cps_below mn mx value h h0,
   fun hmm h h0 => cps_above mn mx value (le_of_lt (lt_of_le_of_lt hmm h)) h h0⟩

/-- Witness for parameter_score_formula at the dissolved-oxygen range
(6.5, 8.5) with one value in each branch. -/
theorem parameter_score_formula_witness :
    calculate_parameter_score 7 (13/2, 17/2) = some 1 ∧
    calculate_parameter_score 5 (13/2, 17/2) = some (max 0 (1 - (13/2 - 5) / (13/2))) ∧
    calculate_parameter_score 9 (13/2, 17/2) = some (max 0 (1 - (9 - 17/2) / (17/2))) :=
  ⟨(parameter_score_formula (13/2) (17/2) 7).1 (by norm_num) (by norm_num),
   (parameter_score_formula (13/2) (17/2) 5).2.1 (by norm_num) (by norm_num),
   (parameter_score_formula (13/2) (17/2) 9).2.2 (by norm_num) (by norm_num) (by norm_num)⟩

/-- C2 counterexample: at the system range (0, 5) (the Turbidity optimal
range) and value -1 the normalizer divides by the zero lower bound —
Python raises ZeroDivisionError — so it neither is exception-free nor
returns a number in the unit interval. -/
theorem parameter_score_zero_min_raises :
    calculate_parameter_score (-1) (0, 5) = none := by
  norm_num [calculate_parameter_score]

/-- C2 amended: with strictly positive bounds the normalizer is total
and returns a value in the unit interval; with lower bound 0 (the system
ranges (0,5), (0,10), (0,2)) it is defined exactly on nonnegative
values, where the result lies in the unit interval, and divides by zero
(Python raises) on negative values. -/
theorem parameter_score_total_on_positive_bounds (mn mx value : ℚ) :
    (0 < mn → 0 < mx →
      ∃ s, calculate_parameter_score value (mn, mx) = some s ∧ 0 ≤ s ∧ s ≤ 1) ∧
    (mn = 0 → 0 < mx → 0 ≤ value →
      ∃ s, calculate_parameter_score value (mn, mx) = some s ∧ 0 ≤ s ∧ s ≤ 1) ∧
    (mn = 0 → value < 0 → calculate_parameter_score value (mn, mx) = none) := by
  refine ⟨fun hmn hmx => cps_total_pos mn mx value hmn hmx, fun h0 hmx hv => ?_, fun h0 hv => ?_⟩
  · subst h0
    exact cps_total_zero_min mx value hmx hv
  · subst h0
    exact cps_below_zero mx value hv

/-- Witness for parameter_score_total_on_positive_bounds: the
dissolved-oxygen range with an out-of-band value, a zero-min range with
a nonnegative out-of-band value, and a zero-min range with a negative
value. -/
theorem parameter_score_total_on_positive_bounds_witness :
    (∃ s, calculate_parameter_score 10 (13/2, 17/2) = some s ∧ 0 ≤ s ∧ s ≤ 1) ∧
    (∃ s, calculate_parameter_score 7 (0, 5) = some s ∧ 0 ≤ s ∧ s ≤ 1) ∧
    calculate_parameter_score (-3) (0, 10) = none :=
  ⟨(parameter_score_total_on_positive_bounds (13/2) (17/2) 10).1 (by norm_num) (by norm_num),
   (parameter_score_total_on_positive_bounds 0 5 7).2.1 rfl (by norm_num) (by norm_num),
   (parameter_score_total_on_positive_bounds 0 10 (-3)).2.2 rfl (by norm_num)⟩

/-- C10: for a range with min > 0 the normalizer saturates at 0 exactly
on values ≤ 0 and is strictly positive on 0 < value < min;
symmetrically, for a range with max > 0 (and min ≤ max, as for any
optimal band) it saturates at 0 exactly on values ≥ 2·max and is
strictly positive on max < value < 2·max. -/
theorem parameter_score_saturation (mn mx value : ℚ) :
    (0 < mn → value ≤ 0 → calculate_parameter_score value (mn, mx) = some 0) ∧
    (0 < mn → 0 < value → value < mn →
      ∃ s, calculate_parameter_score value (mn, mx) = some s ∧ 0 < s) ∧
    (mn ≤ mx → 0 < mx → 2 * mx ≤ value →
      calculate_parameter_score value (mn, mx) = some 0) ∧
    (mn ≤ mx → 0 < mx → mx < value → value < 2 * mx →
      ∃ s, calculate_parameter_score value (mn, mx) = some s ∧ 0 < s) := by
  refine ⟨fun hmn hv => ?_, fun hmn hv hvm => ?_, fun hmm hmx hv => ?_,
    fun hmm hmx hv hv2 => ?_⟩
  · rw [cps_below mn mx value (lt_of_le_of_lt hv hmn) (ne_of_gt hmn)]
    have h1 : 1 ≤ (mn - value) / mn := (one_le_div hmn).mpr (by linarith)
    rw [max_eq_left (by linarith)]
  · rw [cps_below mn mx value hvm (ne_of_gt hmn)]
    refine ⟨_, rfl, ?_⟩
    have h1 : (mn - value) / mn < 1 := (div_lt_one hmn).mpr (by linarith)
    exact lt_max_of_lt_right (by linarith)
  · have hge : mn ≤ value := le_trans hmm (by linarith)
    rw [cps_above mn mx value hge (by linarith) (ne_of_gt hmx)]
    have h1 : 1 ≤ (value - mx) / mx := (one_le_div hmx).mpr (by linarith)
    rw [max_eq_left (by linarith)]
  · have hge : mn ≤ value := le_trans hmm (le_of_lt hv)
    rw [cps_above mn mx value hge hv (ne_of_gt hmx)]
    refine ⟨_, rfl, ?_⟩
    have h1 : (value - mx) / mx < 1 := (div_lt_one hmx).mpr (by linarith)
    exact lt_max_of_lt_right (by linarith)

/-- Witness for parameter_score_saturation at the range (2, 4): zero
score at -1 and at 9 = 2·max + 1, strictly positive score at 1 and 7. -/
theorem parameter_score_saturation_witness :
    calculate_parameter_score (-1) (2, 4) = some 0 ∧
    (∃ s, calculate_parameter_score 1 (2, 4) = some s ∧ 0 < s) ∧
    calculate_parameter_score 9 (2, 4) = some 0 ∧
    (∃ s, calculate_parameter_score 7 (2, 4) = some s ∧ 0 < s) :=
  ⟨(parameter_score_saturation 2 4 (-1)).1 (by norm_num) (by norm_num),
   (parameter_score_saturation 2 4 1).2.1 (by norm_num) (by norm_num) (by norm_num),
   (parameter_score_saturation 2 4 9).2.2.1 (by norm_num) (by norm_num) (by norm_num),
   (parameter_score_saturation 2 4 7).2.2.2 (by norm_num) (by norm_num) (by norm_num) (by norm_num)⟩

/-- C3: the water-quality score is the weighted sum of the four
normalized parameter scores with the fixed weights 0.3/0.2/0.3/0.2
against the table-defined ranges (6.5,8.5), (0,5), (0,10), (0,2); in
particular at (7, 3, 5, 1), all inputs inside their optimal ranges, it
equals 1. -/
theorem water_quality_weighted_sum :
    (∀ oxygen turbidity microplastic chemical so st sm sc : ℚ,
      calculate_parameter_score oxygen (13/2, 17/2) = some so →
      calculate_parameter_score turbidity (0, 5) = some st →
      calculate_parameter_score microplastic (0, 10) = some sm →
      calculate_parameter_score chemical (0, 2) = some sc →
      calculate_water_quality oxygen turbidity microplastic chemical =
        some (so * (3/10) + st * (2/10) + sm * (3/10) + sc * (2/10))) ∧
    calculate_water_quality 7 3 5 1 = some 1 := by
  constructor
  · exact fun o t m c so st sm sc h1 h2 h3 h4 => wq_some_intro o t m c so st sm sc h1 h2 h3 h4
  · rw [wq_some_intro 7 3 5 1 1 1 1 1
      (cps_in_band _ _ _ (by norm_num) (by norm_num))
      (cps_in_band _ _ _ (by norm_num) (by norm_num))
      (cps_in_band _ _ _ (by norm_num) (by norm_num))
      (cps_in_band _ _ _ (by norm_num) (by norm_num))]
    norm_num

/-- Witness for water_quality_weighted_sum: the four in-band scores at
(7, 3, 5, 1) are each 1 and combine to the weighted sum of ones. -/
theorem water_quality_weighted_sum_witness :
    calculate_water_quality 7 3 5 1 =
      some (1 * (3/10) + 1 * (2/10) + 1 * (3/10) + 1 * (2/10)) :=
  water_quality_weighted_sum.1 7 3 5 1 1 1 1 1
    (by norm_num [calculate_parameter_score])
    (by norm_num [calculate_parameter_score])
    (by norm_num [calculate_parameter_score])
    (by norm_num [calculate_parameter_score])

/-- C4: the HAB risk score equals 0.3·(temp/35) + 0.3·(nutrients/10) +
0.2·(1 - |salinity - 35|/10) + 0.2·(1 - |ph - 8|/2), and at exactly
(35, 10, 35, 8) it equals 1. -/
theorem hab_risk_score_formula :
    (∀ water_temp nutrient_levels salinity ph_level : ℚ,
      hab_risk_score water_temp nutrient_levels salinity ph_level =
        (3/10) * (water_temp / 35) + (3/10) * (nutrient_levels / 10) +
        (2/10) * (1 - |salinity - 35| / 10) + (2/10) * (1 - |ph_level - 8| / 2)) ∧
    hab_risk_score 35 10 35 8 = 1 := by
  constructor
  · intro t n s p
    rfl
  · show (3:ℚ)/10 * (35 / 35) + 3/10 * (10 / 10) +
      2/10 * (1 - |(35:ℚ) - 35| / 10) + 2/10 * (1 - |(8:ℚ) - 8| / 2) = 1
    rw [show |(35:ℚ) - 35| = 0 by norm_num, show |(8:ℚ) - 8| = 0 by norm_num]
    norm_num

/-- C5: classification is a strict-greater-than threshold chain checked
from the highest cutoff down — Critical iff score > 0.8, High iff
0.6 < score ≤ 0.8, Moderate iff 0.4 < score ≤ 0.6, Low iff score ≤ 0.4;
green iff quality > 0.7, orange iff 0.4 < quality ≤ 0.7, red iff
quality ≤ 0.4 — so a score exactly at a cutoff falls to the lower
bucket: a HAB score of exactly 0.8 is High, not Critical. -/
theorem threshold_classification_strict :
    (∀ s : ℚ,
      (risk_category s = RiskCategory.Critical ↔ 8/10 < s) ∧
      (risk_category s = RiskCategory.High ↔ 6/10 < s ∧ s ≤ 8/10) ∧
      (risk_category s = RiskCategory.Moderate ↔ 4/10 < s ∧ s ≤ 6/10) ∧
      (risk_category s = RiskCategory.Low ↔ s ≤ 4/10)) ∧
    (∀ q : ℚ,
      (quality_color q = "green" ↔ 7/10 < q) ∧
      (quality_color q = "orange" ↔ 4/10 < q ∧ q ≤ 7/10) ∧
      (quality_color q = "red" ↔ q ≤ 4/10)) ∧
    risk_category (8/10) = RiskCategory.High := by
  refine ⟨fun s => ?_, fun q => ?_, ?_⟩
  · rcases lt_or_le (8/10 : ℚ) s with c1 | c1
    · have hr : risk_category s = RiskCategory.Critical := by
        unfold risk_category
        rw [if_pos c1]
      rw [hr]
      exact ⟨⟨fun _ => c1, fun _ => rfl⟩,
        ⟨fun hh => RiskCategory.noConfusion hh,
         fun hh => absurd c1 (not_lt.mpr hh.2)⟩,
        ⟨fun hh => RiskCategory.noConfusion hh,
         fun hh => absurd (le_trans hh.2 (by norm_num)) (not_le.mpr c1)⟩,
        ⟨fun hh => RiskCategory.noConfusion hh,
         fun hh => absurd (le_trans hh (by norm_num)) (not_le.mpr c1)⟩⟩
    · rcases lt_or_le (6/10 : ℚ) s with c2 | c2
      · have hr : risk_category s = RiskCategory.High := by
          unfold risk_category
          rw [if_neg (not_lt.mpr c1), if_pos c2]
        rw [hr]
        exact ⟨⟨fun hh => RiskCategory.noConfusion hh,
           fun hh => absurd hh (not_lt.mpr c1)⟩,
          ⟨fun _ => ⟨c2, c1⟩, fun _ => rfl⟩,
          ⟨fun hh => RiskCategory.noConfusion hh,
           fun hh => absurd c2 (not_lt.mpr hh.2)⟩,
          ⟨fun hh => RiskCategory.noConfusion hh,
           fun hh => absurd c2 (not_lt.mpr (le_trans hh (by norm_num)))⟩⟩
      · rcases lt_or_le (4/10 : ℚ) s with c3 | c3
        · have hr : risk_category s = RiskCategory.Moderate := by
            unfold risk_category
            rw [if_neg (not_lt.mpr c1), if_neg (not_lt.mpr c2), if_pos c3]
          rw [hr]
          exact ⟨⟨fun hh => RiskCategory.noConfusion hh,
             fun hh => absurd hh (not_lt.mpr c1)⟩,
            ⟨fun hh => RiskCategory.noConfusion hh,
             fun hh => absurd hh.1 (not_lt.mpr c2)⟩,
            ⟨fun _ => ⟨c3, c2⟩, fun _ => rfl⟩,
            ⟨fun hh => RiskCategory.noConfusion hh,
             fun hh => absurd c3 (not_lt.mpr hh)⟩⟩
        · have hr : risk_category s = RiskCategory.Low := by
            unfold risk_category
            rw [if_neg (not_lt.mpr c1), if_neg (not_lt.mpr c2), if_neg (not_lt.mpr c3)]
          rw [hr]
          exact ⟨⟨fun hh => RiskCategory.noConfusion hh,
             fun hh => absurd hh (not_lt.mpr c1)⟩,
            ⟨fun hh => RiskCategory.noConfusion hh,
             fun hh => absurd hh.1 (not_lt.mpr c2)⟩,
            ⟨fun hh => RiskCategory.noConfusion hh,
             fun hh => absurd hh.1 (not_lt.mpr c3)⟩,
            ⟨fun _ => c3, fun _ => rfl⟩⟩
  · rcases lt_or_le (7/10 : ℚ) q with c1 | c1
    · have hr : quality_color q = "green" := by
        unfold quality_color
        rw [if_pos c1]
      rw [hr]
      exact ⟨⟨fun _ => c1, fun _ => rfl⟩,
        ⟨fun hh => absurd hh (by simp), fun hh => absurd c1 (not_lt.mpr hh.2)⟩,
        ⟨fun hh => absurd hh (by simp),
         fun hh => absurd (le_trans hh (by norm_num)) (not_le.mpr c1)⟩⟩
    · rcases lt_or_le (4/10 : ℚ) q with c2 | c2
      · have hr : quality_color q = "orange" := by
          unfold quality_color
          rw [if_neg (not_lt.mpr c1), if_pos c2]
        rw [hr]
        exact ⟨⟨fun hh => absurd hh (by simp), fun hh => absurd hh (not_lt.mpr c1)⟩,
          ⟨fun _ => ⟨c2, c1⟩, fun _ => rfl⟩,
          ⟨fun hh => absurd hh (by simp), fun hh => absurd c2 (not_lt.mpr hh)⟩⟩
      · have hr : quality_color q = "red" := by
          unfold quality_color
          rw [if_neg (not_lt.mpr c1), if_neg (not_lt.mpr c2)]
        rw [hr]
        exact ⟨⟨fun hh => absurd hh (by simp), fun hh => absurd hh (not_lt.mpr c1)⟩,
          ⟨fun hh => absurd hh (by simp), fun hh => absurd hh.1 (not_lt.mpr c2)⟩,
          ⟨fun _ => c2, fun _ => rfl⟩⟩
  · unfold risk_category
    rw [if_neg (by norm_num), if_pos (by norm_num)]

/-- C6: with a non-empty species-health list, the recommendation
selector returns the Critical set iff the water-quality score is below
0.5 or the arithmetic mean of the list is below 0.5, and the Preventive
set otherwise; in particular at water quality 0.9 and list [0.2, 0.2]
(mean 0.2) it returns the Critical set. -/
theorem recommendation_selector_policy :
    (∀ (water_quality : ℚ) (species_health : List ℚ), species_health ≠ [] →
      ((display_conservation_recommendations water_quality species_health =
          Except.ok RecommendationSet.CriticalActions ↔
        water_quality < 1/2 ∨
          species_health.sum / (species_health.length : ℚ) < 1/2) ∧
       (display_conservation_recommendations water_quality species_health =
          Except.ok RecommendationSet.PreventiveMeasures ↔
        ¬(water_quality < 1/2 ∨
            species_health.sum / (species_health.length : ℚ) < 1/2)))) ∧
    display_conservation_recommendations (9/10) [2/10, 2/10] =
      Except.ok RecommendationSet.CriticalActions := by
  constructor
  · intro wq sh hne
    have hlen : ¬(sh.length = 0) := fun h => hne (List.length_eq_zero.mp h)
    unfold display_conservation_recommendations
    rw [if_neg hlen]
    by_cases hc : wq < 1/2 ∨ sh.sum / (sh.length : ℚ) < 1/2
    · rw [if_pos hc]
      constructor
      · exact ⟨fun _ => hc, fun _ => rfl⟩
      · constructor
        · intro hh
          exact absurd (Except.ok.inj hh) (by simp)
        · intro hh
          exact absurd hc hh
    · rw [if_neg hc]
      constructor
      · constructor
        · intro hh
          exact absurd (Except.ok.inj hh) (by simp)
        · intro hh
          exact absurd hh hc
      · exact ⟨fun _ => hc, fun _ => rfl⟩
  · unfold display_conservation_recommendations
    rw [if_neg (by norm_num)]
    rw [if_pos]
    right
    show List.sum [(2:ℚ)/10, 2/10] / ((List.length [(2:ℚ)/10, 2/10] : ℕ) : ℚ) < 1/2
    norm_num

/-- Witness for recommendation_selector_policy at water quality 0.9 and
species-health list [0.2, 0.2]: the Critical set is selected because the
mean 0.2 is below 0.5. -/
theorem recommendation_selector_policy_witness :
    display_conservation_recommendations (9/10) [2/10, 2/10] =
      Except.ok RecommendationSet.CriticalActions :=
  ((recommendation_selector_policy.1 (9/10) [2/10, 2/10] (by simp)).1).mpr
    (by right; norm_num)

/-- C7: on an empty species-health list the source selector evaluates
`sum(species_health) / len(species_health)` and raises an unhandled
ZeroDivisionError; it does not produce the named EmptyInputError the
spec requires. -/
theorem recommendation_selector_empty_divzero :
    display_conservation_recommendations (9/10) [] =
      Except.error SelectorError.ZeroDivisionError ∧
    display_conservation_recommendations (9/10) [] ≠
      Except.error SelectorError.EmptyInputError := by
  constructor
  · rfl
  · intro h
    have h2 : SelectorError.ZeroDivisionError = SelectorError.EmptyInputError :=
      Except.error.inj ((rfl : display_conservation_recommendations (9/10) [] =
        Except.error SelectorError.ZeroDivisionError).symm.trans h)
    exact SelectorError.noConfusion h2

/-- C8: the HAB risk score is not clamped — there are inputs with a
strictly negative score (salinity far from 35) and inputs with a score
above 1 (temperature above 35) — and every negative score is classified
into the lowest bucket by the strict threshold chain. -/
theorem hab_risk_score_unclamped :
    (∃ t n s p : ℚ, hab_risk_score t n s p < 0) ∧
    (∃ t n s p : ℚ, 1 < hab_risk_score t n s p) ∧
    (∀ t n s p : ℚ, hab_risk_score t n s p < 0 →
      risk_category (hab_risk_score t n s p) = RiskCategory.Low) := by
  refine ⟨⟨25, 2, 100, 8, ?_⟩, ⟨100, 10, 35, 8, ?_⟩, fun t n s p h => ?_⟩
  · show (3:ℚ)/10 * (25 / 35) + 3/10 * (2 / 10) +
      2/10 * (1 - |(100:ℚ) - 35| / 10) + 2/10 * (1 - |(8:ℚ) - 8| / 2) < 0
    rw [show |(100:ℚ) - 35| = 65 by norm_num, show |(8:ℚ) - 8| = 0 by norm_num]
    norm_num
  · show (1:ℚ) < 3/10 * (100 / 35) + 3/10 * (10 / 10) +
      2/10 * (1 - |(35:ℚ) - 35| / 10) + 2/10 * (1 - |(8:ℚ) - 8| / 2)
    rw [show |(35:ℚ) - 35| = 0 by norm_num, show |(8:ℚ) - 8| = 0 by norm_num]
    norm_num
  · unfold risk_category
    rw [if_neg (by rw [not_lt]; linarith), if_neg (by rw [not_lt]; linarith),
      if_neg (by rw [not_lt]; linarith)]

/-- Witness for hab_risk_score_unclamped: the negative score at
(25, 2, 100, 8) is classified Low. -/
theorem hab_risk_score_unclamped_witness :
    risk_category (hab_risk_score 25 2 100 8) = RiskCategory.Low :=
  hab_risk_score_unclamped.2.2 25 2 100 8 (by
    show (3:ℚ)/10 * (25 / 35) + 3/10 * (2 / 10) +
      2/10 * (1 - |(100:ℚ) - 35| / 10) + 2/10 * (1 - |(8:ℚ) - 8| / 2) < 0
    rw [show |(100:ℚ) - 35| = 65 by norm_num, show |(8:ℚ) - 8| = 0 by norm_num]
    norm_num)

/-- C9: the water-quality score is monotonically non-decreasing in each
input as that input moves toward its optimal range with the other three
held fixed — stated for both approach directions of each parameter, on
inputs where the score is defined (divides by no zero bound): oxygen
toward (6.5, 8.5) from below and from above, turbidity toward (0, 5),
microplastic toward (0, 10) and chemical toward (0, 2), each from below
their lower bound 0 and from above their upper bound. -/
theorem water_quality_monotone_toward_optimal :
    (∀ x y t m c a b : ℚ, x ≤ y → y ≤ 13/2 →
      calculate_water_quality x t m c = some a →
      calculate_water_quality y t m c = some b → a ≤ b) ∧
    (∀ x y t m c a b : ℚ, y ≤ x → 17/2 ≤ y →
      calculate_water_quality x t m c = some a →
      calculate_water_quality y t m c = some b → a ≤ b) ∧
    (∀ o x y m c a b : ℚ, x ≤ y → y ≤ 0 →
      calculate_water_quality o x m c = some a →
      calculate_water_quality o y m c = some b → a ≤ b) ∧
    (∀ o x y m c a b : ℚ, y ≤ x → 5 ≤ y →
      calculate_water_quality o x m c = some a →
      calculate_water_quality o y m c = some b → a ≤ b) ∧
    (∀ o t x y c a b : ℚ, x ≤ y → y ≤ 0 →
      calculate_water_quality o t x c = some a →
      calculate_water_quality o t y c = some b → a ≤ b) ∧
    (∀ o t x y c a b : ℚ, y ≤ x → 10 ≤ y →
      calculate_water_quality o t x c = some a →
      calculate_water_quality o t y c = some b → a ≤ b) ∧
    (∀ o t m x y a b : ℚ, x ≤ y → y ≤ 0 →
      calculate_water_quality o t m x = some a →
      calculate_water_quality o t m y = some b → a ≤ b) ∧
    (∀ o t m x y a b : ℚ, y ≤ x → 2 ≤ y →
      calculate_water_quality o t m x = some a →
      calculate_water_quality o t m y = some b → a ≤ b) := by
  refine ⟨?_, ?_, ?_, ?_, ?_, ?_, ?_, ?_⟩
  · intro x y t m c a b hxy hy ha hb
    obtain ⟨so1, st1, sm1, sc1, e1, e2, e3, e4, hw1⟩ := wq_some_elim x t m c a ha
    obtain ⟨so2, st2, sm2, sc2, f1, f2, f3, f4, hw2⟩ := wq_some_elim y t m c b hb
    have hso : so1 ≤ so2 :=
      cps_mono_toward_min (13/2) (17/2) x y so1 so2 (by norm_num) (by norm_num) hxy hy e1 f1
    have hst : st1 = st2 := Option.some.inj (e2.symm.trans f2)
    have hsm : sm1 = sm2 := Option.some.inj (e3.symm.trans f3)
    have hsc : sc1 = sc2 := Option.some.inj (e4.symm.trans f4)
    rw [hw1, hw2]
    linarith
  · intro x y t m c a b hxy hy ha hb
    obtain ⟨so1, st1, sm1, sc1, e1, e2, e3, e4, hw1⟩ := wq_some_elim x t m c a ha
    obtain ⟨so2, st2, sm2, sc2, f1, f2, f3, f4, hw2⟩ := wq_some_elim y t m c b hb
    have hso : so1 ≤ so2 :=
      cps_mono_toward_max (13/2) (17/2) x y so1 so2 (by norm_num) (by norm_num) hxy hy e1 f1
    have hst : st1 = st2 := Option.some.inj (e2.symm.trans f2)
    have hsm : sm1 = sm2 := Option.some.inj (e3.symm.trans f3)
    have hsc : sc1 = sc2 := Option.some.inj (e4.symm.trans f4)
    rw [hw1, hw2]
    linarith
  · intro o x y m c a b hxy hy ha hb
    obtain ⟨so1, st1, sm1, sc1, e1, e2, e3, e4, hw1⟩ := wq_some_elim o x m c a ha
    obtain ⟨so2, st2, sm2, sc2, f1, f2, f3, f4, hw2⟩ := wq_some_elim o y m c b hb
    have hst : st1 ≤ st2 :=
      cps_mono_toward_min 0 5 x y st1 st2 (by norm_num) (by norm_num) hxy hy e2 f2
    have hso : so1 = so2 := Option.some.inj (e1.symm.trans f1)
    have hsm : sm1 = sm2 := Option.some.inj (e3.symm.trans f3)
    have hsc : sc1 = sc2 := Option.some.inj (e4.symm.trans f4)
    rw [hw1, hw2]
    linarith
  · intro o x y m c a b hxy hy ha hb
    obtain ⟨so1, st1, sm1, sc1, e1, e2, e3, e4, hw1⟩ := wq_some_elim o x m c a ha
    obtain ⟨so2, st2, sm2, sc2, f1, f2, f3, f4, hw2⟩ := wq_some_elim o y m c b hb
    have hst : st1 ≤ st2 :=
      cps_mono_toward_max 0 5 x y st1 st2 (by norm_num) (by norm_num) hxy hy e2 f2
    have hso : so1 = so2 := Option.some.inj (e1.symm.trans f1)
    have hsm : sm1 = sm2 := Option.some.inj (e3.symm.trans f3)
    have hsc : sc1 = sc2 := Option.some.inj (e4.symm.trans f4)
    rw [hw1, hw2]
    linarith
  · intro o t x y c a b hxy hy ha hb
    obtain ⟨so1, st1, sm1, sc1, e1, e2, e3, e4, hw1⟩ := wq_some_elim o t x c a ha
    obtain ⟨so2, st2, sm2, sc2, f1, f2, f3, f4, hw2⟩ := wq_some_elim o t y c b hb
    have hsm : sm1 ≤ sm2 :=
      cps_mono_toward_min 0 10 x y sm1 sm2 (by norm_num) (by norm_num) hxy hy e3 f3
    have hso : so1 = so2 := Option.some.inj (e1.symm.trans f1)
    have hst : st1 = st2 := Option.some.inj (e2.symm.trans f2)
    have hsc : sc1 = sc2 := Option.some.inj (e4.symm.trans f4)
    rw [hw1, hw2]
    linarith
  · intro o t x y c a b hxy hy ha hb
    obtain ⟨so1, st1, sm1, sc1, e1, e2, e3, e4, hw1⟩ := wq_some_elim o t x c a ha
    obtain ⟨so2, st2, sm2, sc2, f1, f2, f3, f4, hw2⟩ := wq_some_elim o t y c b hb
    have hsm : sm1 ≤ sm2 :=
      cps_mono_toward_max 0 10 x y sm1 sm2 (by norm_num) (by norm_num) hxy hy e3 f3
    have hso : so1 = so2 := Option.some.inj (e1.symm.trans f1)
    have hst : st1 = st2 := Option.some.inj (e2.symm.trans f2)
    have hsc : sc1 = sc2 := Option.some.inj (e4.symm.trans f4)
    rw [hw1, hw2]
    linarith
  · intro o t m x y a b hxy hy ha hb
    obtain ⟨so1, st1, sm1, sc1, e1, e2, e3, e4, hw1⟩ := wq_some_elim o t m x a ha
    obtain ⟨so2, st2, sm2, sc2, f1, f2, f3, f4, hw2⟩ := wq_some_elim o t m y b hb
    have hsc : sc1 ≤ sc2 :=
      cps_mono_toward_min 0 2 x y sc1 sc2 (by norm_num) (by norm_num) hxy hy e4 f4
    have hso : so1 = so2 := Option.some.inj (e1.symm.trans f1)
    have hst : st1 = st2 := Option.some.inj (e2.symm.trans f2)
    have hsm : sm1 = sm2 := Option.some.inj (e3.symm.trans f3)
    rw [hw1, hw2]
    linarith
  · intro o t m x y a b hxy hy ha hb
    obtain ⟨so1, st1, sm1, sc1, e1, e2, e3, e4, hw1⟩ := wq_some_elim o t m x a ha
    obtain ⟨so2, st2, sm2, sc2, f1, f2, f3, f4, hw2⟩ := wq_some_elim o t m y b hb
    have hsc : sc1 ≤ sc2 :=
      cps_mono_toward_max 0 2 x y sc1 sc2 (by norm_num) (by norm_num) hxy hy e4 f4
    have hso : so1 = so2 := Option.some.inj (e1.symm.trans f1)
    have hst : st1 = st2 := Option.some.inj (e2.symm.trans f2)
    have hsm : sm1 = sm2 := Option.some.inj (e3.symm.trans f3)
    rw [hw1, hw2]
    linarith

/-- Witness for water_quality_monotone_toward_optimal: raising oxygen
from 5 toward 6 below the optimal band (with turbidity 3, microplastic
5, chemical 1 fixed) raises the score from 121/130 to 127/130. -/
theorem water_quality_monotone_toward_optimal_witness :
    (121/130 : ℚ) ≤ 127/130 :=
  water_quality_monotone_toward_optimal.1 5 6 3 5 1 (121/130) (127/130)
    (by norm_num) (by norm_num)
    (by norm_num [calculate_water_quality, calculate_parameter_score,
      dissolvedOxygen, turbidityParam, microplasticCount, chemicalPollutants])
    (by norm_num [calculate_water_quality, calculate_parameter_score,
      dissolvedOxygen, turbidityParam, microplasticCount, chemicalPollutants])
